import Mathlib

/-!
Verification development for the MrTidy repository (collect.py and tidy.py).

The Python sources are shallowly embedded: pure string/date processing
functions become Lean functions on `String`/`List Char`; the filesystem
effects of the tidy stage become explicit state passing over a small
filesystem record; Python exceptions that can escape a function are
modelled by an `Except PyErr` result.
-/

set_option autoImplicit false

/-- Python exception kinds that the embedded code can raise. -/
inductive PyErr where
  | attributeError : PyErr
  | valueError : PyErr
  | typeError : PyErr
  | keyError : PyErr
deriving DecidableEq, Repr

/-- Digit character with value `k` (models the characters `'0'`..`'9'`). -/
def digitChar (k : Nat) : Char := Char.ofNat (48 + k)

/-- Numeric value of a digit character (models `int` applied to one digit). -/
def dval (c : Char) : Nat := c.toNat - 48

/-- Membership in the character class `[一-龥A-Za-z]` that
`re.sub` removes in `process_datetime` (collect.py line 87) and
`pick_num` (tidy.py line 241): CJK unified ideographs and Latin letters. -/
def isCJKorLatinB (c : Char) : Bool :=
  (0x4E00 ≤ c.toNat && c.toNat ≤ 0x9FA5) ||
  (65 ≤ c.toNat && c.toNat ≤ 90) ||
  (97 ≤ c.toNat && c.toNat ≤ 122)

/-- Python `\s` on the ASCII range (space, tab, newline, carriage return,
vertical tab, form feed).  All strings handled by this development are in
this range. -/
def pyWs (c : Char) : Bool :=
  c = ' ' || c = '\t' || c = '\n' || c = '\r' || c = '\x0b' || c = '\x0c'

/-- Step 1 of `process_datetime`: `re.sub(r'[一-龥A-Za-z]', '', s)`. -/
def stripCJKLatin (l : List Char) : List Char :=
  l.filter (fun c => !(isCJKorLatinB c))

/-- Steps 2 and 3 of `process_datetime`: `s.replace('-',':').replace('/',':')`. -/
def dashSlashToColon (c : Char) : Char :=
  if c = '-' then ':' else if c = '/' then ':' else c

/-- Greedy match of one or two digits (the `\d{1,2}` groups of the pattern).
In the pattern every such group is followed by a character that is not a
digit (`:` or `\s` or the unconstrained tail), so the local greedy choice
is exactly the backtracking behaviour of the regex engine. -/
def parseNum2 : List Char → Option (Nat × List Char)
  | [] => none
  | [a] => if a.isDigit then some (dval a, []) else none
  | a :: b :: rest =>
      if a.isDigit then
        if b.isDigit then some (10 * dval a + dval b, rest)
        else some (dval a, b :: rest)
      else none

/-- Literal `:` of the pattern. -/
def expectColon : List Char → Option (List Char)
  | ':' :: r => some r
  | _ => none

/-- Greedy tail of `\s+`. -/
def skipWsMany : List Char → List Char
  | [] => []
  | c :: r => if pyWs c then skipWsMany r else c :: r

/-- The `\s+` of the pattern: at least one whitespace character, then
greedily all following whitespace (the next pattern element is a digit,
disjoint from whitespace, so greediness is exact). -/
def skipWs1 : List Char → Option (List Char)
  | [] => none
  | c :: r => if pyWs c then some (skipWsMany r) else none

/-- Attempt to match the core of the `process_datetime` pattern
`(?P<year>\d{4}):(?P<month>\d{1,2}):(?P<day>\d{1,2})\s+(?P<hour>\d{1,2}):(?P<minute>\d{1,2}):(?P<second>\d{1,2})`
at the head of the list, returning the six captured values already
converted by `int(...)`.  The trailing `.*` of the full pattern never
constrains the match and is dropped. -/
def matchCore (l : List Char) : Option (Nat × Nat × Nat × Nat × Nat × Nat) :=
  match l with
  | a :: b :: c :: d :: rest =>
      if a.isDigit && b.isDigit && c.isDigit && d.isDigit then
        let y := 1000 * dval a + 100 * dval b + 10 * dval c + dval d
        match expectColon rest with
        | none => none
        | some r1 =>
          match parseNum2 r1 with
          | none => none
          | some (mo, r2) =>
            match expectColon r2 with
            | none => none
            | some r3 =>
              match parseNum2 r3 with
              | none => none
              | some (dy, r4) =>
                match skipWs1 r4 with
                | none => none
                | some r5 =>
                  match parseNum2 r5 with
                  | none => none
                  | some (hh, r6) =>
                    match expectColon r6 with
                    | none => none
                    | some r7 =>
                      match parseNum2 r7 with
                      | none => none
                      | some (mi, r8) =>
                        match expectColon r8 with
                        | none => none
                        | some r9 =>
                          match parseNum2 r9 with
                          | none => none
                          | some (ss, _) => some (y, mo, dy, hh, mi, ss)
      else none
  | _ => none

/-- Try `matchCore` on the suffixes `l.drop k, l.drop (k-1), ..., l.drop 0`
in that order.  This is the backtracking of the leading greedy `.*`:
larger prefixes are consumed first, so later core start positions are
preferred. -/
def tryDescending : Nat → List Char → Option (Nat × Nat × Nat × Nat × Nat × Nat)
  | 0, l => matchCore l
  | k + 1, l =>
      match matchCore (l.drop (k + 1)) with
      | some f => some f
      | none => tryDescending k l

/-- Fuel-driven model of `re.search` for the `process_datetime` pattern.
A leading `.*` cannot cross a newline, so within the segment before the
first newline the rightmost core start wins; if the whole segment fails,
the search resumes after the newline. -/
def pySearchAux : Nat → List Char → Option (Nat × Nat × Nat × Nat × Nat × Nat)
  | 0, _ => none
  | fuel + 1, l =>
      let k := (l.takeWhile (fun c => c ≠ '\n')).length
      match tryDescending k l with
      | some f => some f
      | none => if k + 1 ≤ l.length then pySearchAux fuel (l.drop (k + 1)) else none

/-- Model of `re.search(r'.*(\d{4}):(\d{1,2}):(\d{1,2})\s+(\d{1,2}):(\d{1,2}):(\d{1,2}).*', s)`
(collect.py line 92), returning the captured groups as numbers. -/
def pySearchDT (l : List Char) : Option (Nat × Nat × Nat × Nat × Nat × Nat) :=
  pySearchAux (l.length + 1) l

/-- Decimal string of a value below 10000, rendered as exactly four digit
characters.  Models Python `f"{year}"` for the years that reach the
rendering step of `process_datetime` (all in `[1900, 2050]`). -/
def numStr4 (n : Nat) : List Char :=
  [digitChar (n / 1000 % 10), digitChar (n / 100 % 10),
   digitChar (n / 10 % 10), digitChar (n % 10)]

/-- Two-digit zero-padded rendering.  Models Python `f"{n:02}"` for
`n < 100` (all field values that reach the rendering step are below 100). -/
def pad2 (n : Nat) : List Char :=
  [digitChar (n / 10 % 10), digitChar (n % 10)]

/-- Character list of the canonical rendering
`f"{year}:{month:02}:{day:02} {hour:02}:{minute:02}:{second:02}"`
(collect.py line 123). -/
def renderDT (y mo dy hh mi ss : Nat) : List Char :=
  numStr4 y ++ [':'] ++ pad2 mo ++ [':'] ++ pad2 dy ++ [' '] ++
  pad2 hh ++ [':'] ++ pad2 mi ++ [':'] ++ pad2 ss

/-- Embedding of `process_datetime` (collect.py lines 81-124).

The function strips CJK and Latin letters, rewrites `-` and `/` to `:`,
searches for the date-time pattern, validates year/month/day, wraps
hour/minute/second by modulo when out of range, and re-renders.

The Python source guards only the `re.search` call with `try/except`
(`re.search` on a valid pattern never raises, so that handler is dead
code), while the `if not datetime: return None` guard is commented out
(lines 96-97); therefore when the pattern does not match, the call
`datetime.group('year')` on `None` raises an uncaught `AttributeError`,
modelled here as `Except.error .attributeError`.  `Except.ok none` models
a returned Python `None`, `Except.ok (some s)` a returned string. -/
def process_datetime (raw : String) : Except PyErr (Option String) :=
  let l1 := stripCJKLatin raw.data
  let l2 := l1.map dashSlashToColon
  match pySearchDT l2 with
  | none => Except.error PyErr.attributeError
  | some (year, month, day, hour, minute, second) =>
      if year < 1900 || year > 2050 then Except.ok none
      else if month < 1 || month > 12 then Except.ok none
      else if day < 1 || day > 31 then Except.ok none
      else
        let hour := if hour > 23 then hour % 24 else hour
        let minute := if minute > 59 then minute % 60 else minute
        let second := if second > 59 then second % 60 else second
        Except.ok (some (String.mk (renderDT year month day hour minute second)))

/-- Leap-year rule used by Python's `datetime.date`. -/
def isLeap (y : Nat) : Bool :=
  (y % 4 = 0 && y % 100 ≠ 0) || y % 400 = 0

/-- Days of a month per the proleptic Gregorian calendar of `datetime.date`. -/
def daysInMonth (y m : Nat) : Nat :=
  if m = 2 then (if isLeap y then 29 else 28)
  else if m = 4 || m = 6 || m = 9 || m = 11 then 30
  else 31

/-- Parse exactly two digit characters. -/
def parse2Digits : List Char → Option (Nat × List Char)
  | a :: b :: rest =>
      if a.isDigit && b.isDigit then some (10 * dval a + dval b, rest) else none
  | _ => none

/-- Model of `time.strptime(s, '%Y:%m:%d %H:%M:%S')` (collect.py lines
161 and 222) on the zero-padded strings produced by `process_datetime`:
a strict full-string parse of `YYYY:MM:DD HH:MM:SS` followed by the field
and calendar validation CPython performs (`%m` in 1..12, `%d` in 1..31,
`%H` below 24, `%M`/`%S` below 60, and the day checked against the month
via `datetime.date`).  Any failure raises `ValueError`. -/
def strptimeYmdHMS (s : String) : Except PyErr (Nat × Nat × Nat × Nat × Nat × Nat) :=
  match s.data with
  | a :: b :: c :: d :: rest =>
      if a.isDigit && b.isDigit && c.isDigit && d.isDigit then
        let y := 1000 * dval a + 100 * dval b + 10 * dval c + dval d
        match expectColon rest with
        | none => Except.error PyErr.valueError
        | some r1 =>
          match parse2Digits r1 with
          | none => Except.error PyErr.valueError
          | some (mo, r2) =>
            match expectColon r2 with
            | none => Except.error PyErr.valueError
            | some r3 =>
              match parse2Digits r3 with
              | none => Except.error PyErr.valueError
              | some (dy, r4) =>
                match r4 with
                | ' ' :: r5 =>
                  match parse2Digits r5 with
                  | none => Except.error PyErr.valueError
                  | some (hh, r6) =>
                    match expectColon r6 with
                    | none => Except.error PyErr.valueError
                    | some r7 =>
                      match parse2Digits r7 with
                      | none => Except.error PyErr.valueError
                      | some (mi, r8) =>
                        match expectColon r8 with
                        | none => Except.error PyErr.valueError
                        | some r9 =>
                          match parse2Digits r9 with
                          | none => Except.error PyErr.valueError
                          | some (ss, r10) =>
                            if r10 = [] &&
                               1 ≤ mo && mo ≤ 12 && 1 ≤ dy && dy ≤ 31 &&
                               hh ≤ 23 && mi ≤ 59 && ss ≤ 59 &&
                               dy ≤ daysInMonth y mo then
                              Except.ok (y, mo, dy, hh, mi, ss)
                            else Except.error PyErr.valueError
                | _ => Except.error PyErr.valueError
      else Except.error PyErr.valueError
  | _ => Except.error PyErr.valueError

/-- Rendering of `time.strftime('%Y/%m', tm)`: the short form `YYYY/MM`. -/
def fmtShort (y mo : Nat) : String :=
  String.mk (numStr4 y ++ ['/'] ++ pad2 mo)

/-- Rendering of `time.strftime('%Y%m%d_%H%M%S', tm)`: the long form
`YYYYMMDD_HHMMSS`. -/
def fmtLong (y mo dy hh mi ss : Nat) : String :=
  String.mk (numStr4 y ++ pad2 mo ++ pad2 dy ++ ['_'] ++ pad2 hh ++ pad2 mi ++ pad2 ss)

/-- Extraction result of one source, the `msg` dictionary built by
`get_exif_datetime` / `get_meta_datetime`.  `stat` is the status code
(`"0"` success, `"1"` unreadable file, `"2"` no tag set, `"3"` no date
field, `"4"` invalid date). -/
structure ExtMsg where
  stat : String
  etype : String
  key : Option String
  raw : Option String
  short : Option String
  long : Option String
deriving DecidableEq, Repr

/-- Embedding of the shared tail of `get_exif_datetime` (collect.py lines
156-172) and `get_meta_datetime` (lines 217-233), starting at the point
where a tag key has matched and its raw date text is in hand: normalize
the raw text with `process_datetime`; a falsy result sets `stat` to `"4"`;
otherwise the rendered string goes through `time.strptime` — that call is
not inside the surrounding `try` block, so a `ValueError` it raises
escapes the extraction function, as does an `AttributeError` raised by
`process_datetime` itself. -/
def extractFromRaw (typ key raw : String) : Except PyErr ExtMsg :=
  match process_datetime raw with
  | Except.error e => Except.error e
  | Except.ok none =>
      Except.ok { stat := "4", etype := typ, key := none, raw := none,
                  short := none, long := none }
  | Except.ok (some pro) =>
      match strptimeYmdHMS pro with
      | Except.error e => Except.error e
      | Except.ok (y, mo, dy, hh, mi, ss) =>
          Except.ok { stat := "0", etype := typ, key := some key, raw := some raw,
                      short := some (fmtShort y mo),
                      long := some (fmtLong y mo dy hh mi ss) }

/-- The ordered EXIF tag keys `_EXIF_KEYS` (collect.py line 47). -/
def EXIF_KEYS : List String :=
  ["EXIF DateTimeOriginal", "EXIF DateTimeDigitized", "Image DateTime"]

/-- The ordered META tag keys `_META_KEYS` (collect.py line 48). -/
def META_KEYS : List String :=
  ["Date-time original", "Date-time digitized", "Creation date"]

/-- The per-file record built by `get_datetime` (collect.py lines 248-258). -/
structure DtMsg where
  stat : String
  check : Option String
  exifK : Option String
  exifR : Option String
  exifS : Option String
  exifL : Option String
  metaK : Option String
  metaR : Option String
  metaS : Option String
  metaL : Option String
deriving DecidableEq, Repr

/-- Python `int` applied to a string of decimal digits; `none` models the
`ValueError` raised on any other content (never reached by well-formed
short forms). -/
def pyInt (s : String) : Option Nat :=
  if s.data ≠ [] && s.data.all Char.isDigit then
    some (s.data.foldl (fun acc c => 10 * acc + dval c) 0)
  else none

/-- The expression `int(short.split('/')[0])` of collect.py lines 270 and
278: the digits before the first `/` of a short form, as a number.
`none` models a crash on a malformed or absent short form. -/
def yearOfShort : Option String → Option Nat
  | none => none
  | some s => pyInt (String.mk (s.data.takeWhile (fun c => c ≠ '/')))

/-- Embedding of the classification block, collect.py lines 279-289: run
only when `stat` is `"0"`; both long forms present and equal gives `BOTH`,
present and different gives `D_ERR`, otherwise the side whose long form is
present names the classification. -/
def classify (stat : String) (exifL metaL : Option String) : Option String :=
  if stat = "0" then
    if exifL.isSome && metaL.isSome then
      if exifL = metaL then some "BOTH" else some "D_ERR"
    else
      if exifL.isSome then some "EXIF" else some "META"
  else none

/-- Embedding of `get_datetime` (collect.py lines 242-296) given the two
extractor results: copy each successful side into the record, remembering
`the_year` from that side's short form (META last, so META wins when both
are present), classify, and apply the year gate — but only when the
classification is `BOTH`, `EXIF` or `META` (line 290).  `currentYear`
stands for `time.localtime().tm_year`.  `none` models a crash on records
whose successful side lacks a parsable short form (`the_year` would raise
in Python there). -/
def get_datetime (exif_dt meta_dt : ExtMsg) (currentYear beginYear : Nat) :
    Option DtMsg :=
  let msg0 : DtMsg :=
    { stat := "1", check := none,
      exifK := none, exifR := none, exifS := none, exifL := none,
      metaK := none, metaR := none, metaS := none, metaL := none }
  let p1 : DtMsg × Option Nat :=
    if exif_dt.stat = "0" then
      ({ msg0 with
          stat := "0", exifK := exif_dt.key, exifR := exif_dt.raw,
          exifS := exif_dt.short, exifL := exif_dt.long }, yearOfShort exif_dt.short)
    else (msg0, none)
  let p2 : DtMsg × Option Nat :=
    if meta_dt.stat = "0" then
      ({ p1.1 with
          stat := "0", metaK := meta_dt.key, metaR := meta_dt.raw,
          metaS := meta_dt.short, metaL := meta_dt.long }, yearOfShort meta_dt.short)
    else p1
  let msg2 := p2.1
  if msg2.stat = "0" then
    let chk := classify msg2.stat msg2.exifL msg2.metaL
    if chk = some "BOTH" || chk = some "EXIF" || chk = some "META" then
      match p2.2 with
      | none => none
      | some theYear =>
          if theYear < beginYear || theYear > currentYear then
            some { msg2 with check := some "Y_ERR" }
          else some { msg2 with check := chk }
    else some { msg2 with check := chk }
  else some msg2

/-- A row of the inventory ledger consumed by tidy.py (`_COLS_SET`,
tidy.py line 54): file path, category, extension, size, content hash,
classification, and the EXIF/META key/raw/short/long projections.
Cells that are empty in the ledger (Python `None` / pandas `NaN`) are
`none`. -/
structure FileRecord where
  path : String
  ftype : String
  ext : String
  size : String
  md5 : String
  check : Option String
  exifK : Option String
  exifR : Option String
  exifS : Option String
  exifL : Option String
  metaK : Option String
  metaR : Option String
  metaS : Option String
  metaL : Option String
deriving DecidableEq, Repr

/-- Model of the destination directory tree: which directories exist,
how many entries `os.listdir` reports in each, and which file paths hold
a file.  Paths are joined with `/`.  Counts track the output tree only
(the ledger's source paths live outside it). -/
structure FS where
  dirs : String → Bool
  count : String → Nat
  files : String → Bool

/-- Model of `os.path.basename` on `/`-joined paths. -/
def pyBasename (p : String) : String :=
  String.mk (p.data.reverse.takeWhile (fun c => c ≠ '/')).reverse

/-- Stem of `os.path.splitext`: the name up to its last `.`, or the whole
name when it has none. -/
def pyStem (name : String) : String :=
  let r := name.data.reverse
  if r.any (fun c => c = '.') then String.mk ((r.dropWhile (fun c => c ≠ '.')).drop 1).reverse
  else name

/-- Model of `os.path.split(p)[0]`: everything before the last `/`, or the
empty string when there is none. -/
def pyDirname (p : String) : String :=
  let r := p.data.reverse
  if r.any (fun c => c = '/') then String.mk ((r.dropWhile (fun c => c ≠ '/')).drop 1).reverse
  else ""

/-- Model of `os.path.join` of pre-split path components, re-joined
with `/`. -/
def joinPath (a b : String) : String := a ++ "/" ++ b

/-- Replacement of `re.sub(r'___*', '_', s)`: every run of two or more
underscores collapses to a single one. -/
def collapseU : List Char → List Char
  | [] => []
  | [c] => [c]
  | a :: b :: rest =>
      if a = '_' && b = '_' then collapseU (b :: rest)
      else a :: collapseU (b :: rest)

/-- Embedding of `pick_num` (tidy.py lines 236-245): strip CJK and Latin
letters, strip all leading underscores, strip all trailing underscores,
collapse interior runs of underscores. -/
def pick_num (fname : String) : String :=
  let l1 := stripCJKLatin fname.data
  let l2 := l1.dropWhile (fun c => c = '_')
  let l3 := (l2.reverse.dropWhile (fun c => c = '_')).reverse
  String.mk (collapseU l3)

/-- Python `f"{n:05}"`: decimal digits zero-padded on the left to width
five. -/
def pad5 (n : Nat) : String :=
  let s := Nat.repr n
  if s.length < 5 then String.mk (List.replicate (5 - s.length) '0') ++ s else s

/-- The category-routing dictionary `_FILE_CATEGORY` (tidy.py lines
62-68); `none` models a `KeyError` on a missing key. -/
def FILE_CATEGORY : String → Option String
  | "image_with_datetime" => some "Photos_bydt"
  | "image_without_datetime" => some "Photos_nodt"
  | "video_with_datetime" => some "Photos_bydt"
  | "video_without_datetime" => some "Videos_nodt"
  | "year_err" => some "Year_err"
  | "other" => some "Other_files"
  | _ => none

/-- The derived `_DATE_DIRS` list (tidy.py lines 71-76): the deduplicated
`with_datetime` targets. -/
def DATE_DIRS : List String := ["Photos_bydt"]

/-- Python `f"{x}"` on a value that may be `None`. -/
def fmtOpt (o : Option String) : String := o.getD "None"

/-- Embedding of `move_file` (tidy.py lines 248-282): an empty (falsy)
source path or a missing target directory yields a failure reason without
touching the tree; otherwise the file lands at `output_path` (and with
`remove` set the source disappears), and the target directory gains one
entry.  The `shutil` calls themselves are modelled as succeeding. -/
def move_file (fs : FS) (input_path output_path : String) (remove : Bool) :
    Option String × FS :=
  if input_path = "" then (some ("文件原始路径不存在:" ++ input_path), fs)
  else
    let output_dir := pyDirname output_path
    if !fs.dirs output_dir && output_dir ≠ "" then
      (some ("文件目标路径目录不存在:" ++ output_dir), fs)
    else
      let fs' : FS :=
        { dirs := fs.dirs,
          count := fun d => if d = output_dir then fs.count d + 1 else fs.count d,
          files := fun p =>
            if p = output_path then true
            else if remove && p = input_path then false
            else fs.files p }
      (none, fs')

/-- A row of the year-out-of-range audit table (`_Y_COLS_SET`). -/
structure YerrRow where
  orig : String
  target : String
  size : String
  exifK : Option String
  exifL : Option String
  metaK : Option String
  metaL : Option String
deriving DecidableEq, Repr

/-- A row of the failure table (`_F_COLS_SET`): original path, attempted
target, copy-or-move mode, size, failure reason. -/
structure FailRow where
  orig : String
  target : String
  mode : Bool
  size : String
  reason : String
deriving DecidableEq, Repr

/-- Outcome of planning one record: the target directory and path, the
value of the loop-carried `confi` variable after this record, and the
audit row appended when the record is `Y_ERR`. -/
structure PlanOut where
  dir : String
  path : String
  confi : Option String
  yerr : Option YerrRow
deriving DecidableEq, Repr

/-- Embedding of the per-record target computation of `reorgnize_file`
(tidy.py lines 304-386).  `confi0` is the value the loop-carried `confi`
variable holds when this record is reached (it is only reassigned inside
the dated branches; on an unrecognized tag key it silently keeps its
previous value, which an f-string renders as `None` when it is still
unset).  `none` models an uncaught exception: a `KeyError` on the
category table, an attribute error on a missing short form, `os.listdir`
on a directory that does not exist, or `'D_' + None` on a `D_ERR` record
with unrecognized keys. -/
def planStep (confi0 : Option String) (r : FileRecord) (fs : FS) : Option PlanOut :=
  let file_name := pyStem (pyBasename r.path)
  if r.check = some "BOTH" || r.check = some "D_ERR" ||
     r.check = some "META" || r.check = some "EXIF" then
    match FILE_CATEGORY (r.ftype ++ "_with_datetime") with
    | none => none
    | some category =>
      if r.check = some "EXIF" then
        let confi :=
          if r.exifK = some "EXIF DateTimeOriginal" then some "EXIF_U"
          else if r.exifK = some "EXIF DateTimeDigitized" then some "EXIF_H"
          else if r.exifK = some "Image DateTime" then some "EXIF_N"
          else confi0
        match r.exifS with
        | none => none
        | some shortE =>
          let dir := joinPath category shortE
          if fs.dirs dir then
            some { dir := dir,
                   path := dir ++ "/IMG_" ++ fmtOpt r.exifL ++ "_" ++ fmtOpt confi ++
                           "_" ++ pad5 (fs.count dir + 1) ++ "." ++ r.ext,
                   confi := confi, yerr := none }
          else none
      else if r.check = some "META" then
        let confi :=
          if r.metaK = some "Date-time original" then some "META_U"
          else if r.metaK = some "Date-time digitized" then some "META_H"
          else if r.metaK = some "Creation date" then some "META_N"
          else confi0
        match r.metaS with
        | none => none
        | some shortM =>
          let dir := joinPath category shortM
          if fs.dirs dir then
            some { dir := dir,
                   path := dir ++ "/IMG_" ++ fmtOpt r.metaL ++ "_" ++ fmtOpt confi ++
                           "_" ++ pad5 (fs.count dir + 1) ++ "." ++ r.ext,
                   confi := confi, yerr := none }
          else none
      else if r.check = some "BOTH" then
        let confi :=
          if r.exifK = some "EXIF DateTimeOriginal" || r.metaK = some "Date-time original" then
            some "BOTH_U"
          else if r.exifK = some "EXIF DateTimeDigitized" || r.metaK = some "Date-time digitized" then
            some "BOTH_H"
          else if r.exifK = some "Image DateTime" || r.metaK = some "Creation date" then
            some "BOTH_N"
          else confi0
        match r.exifS with
        | none => none
        | some shortE =>
          let dir := joinPath category shortE
          if fs.dirs dir then
            some { dir := dir,
                   path := dir ++ "/IMG_" ++ fmtOpt r.exifL ++ "_" ++ fmtOpt confi ++
                           "_" ++ pad5 (fs.count dir + 1) ++ "." ++ r.ext,
                   confi := confi, yerr := none }
          else none
      else
        let choseTier : Option (String × String) :=
          if r.exifK = some "EXIF DateTimeOriginal" || r.metaK = some "Date-time original" then
            some (if r.exifK = some "EXIF DateTimeOriginal" then "EXIF" else "META", "U")
          else if r.exifK = some "EXIF DateTimeDigitized" || r.metaK = some "Date-time digitized" then
            some (if r.exifK = some "EXIF DateTimeDigitized" then "EXIF" else "META", "H")
          else if r.exifK = some "Image DateTime" || r.metaK = some "Creation date" then
            some (if r.exifK = some "Image DateTime" then "EXIF" else "META", "N")
          else none
        match choseTier with
        | none => none
        | some (chose, letter) =>
          let confi := "D_" ++ chose ++ "_" ++ letter
          if chose = "EXIF" then
            match r.exifS with
            | none => none
            | some shortE =>
              let dir := joinPath category shortE
              if fs.dirs dir then
                some { dir := dir,
                       path := dir ++ "/IMG_" ++ fmtOpt r.exifL ++ "_" ++ confi ++
                               "_" ++ pad5 (fs.count dir + 1) ++ "." ++ r.ext,
                       confi := some confi, yerr := none }
              else none
          else
            match r.metaS with
            | none => none
            | some shortM =>
              let dir := joinPath category shortM
              if fs.dirs dir then
                some { dir := dir,
                       path := dir ++ "/IMG_" ++ fmtOpt r.metaL ++ "_" ++ confi ++
                               "_" ++ pad5 (fs.count dir + 1) ++ "." ++ r.ext,
                       confi := some confi, yerr := none }
              else none
  else if r.check = some "Y_ERR" then
    match FILE_CATEGORY "year_err" with
    | none => none
    | some dir =>
      if fs.dirs dir then
        let tgt := dir ++ "/" ++ file_name ++ "_" ++ pad5 (fs.count dir + 1) ++ "." ++ r.ext
        some { dir := dir, path := tgt, confi := confi0,
               yerr := some { orig := r.path, target := tgt, size := r.size,
                              exifK := r.exifK, exifL := r.exifL,
                              metaK := r.metaK, metaL := r.metaL } }
      else none
  else if r.ftype ≠ "other" then
    match FILE_CATEGORY (r.ftype ++ "_without_datetime") with
    | none => none
    | some dir =>
      if fs.dirs dir then
        some { dir := dir,
               path := dir ++ "/IMG_" ++ pick_num file_name ++ "_NODT_" ++
                       pad5 (fs.count dir + 1) ++ "." ++ r.ext,
               confi := confi0, yerr := none }
      else none
  else
    match FILE_CATEGORY "other" with
    | none => none
    | some dir =>
      if fs.dirs dir then
        some { dir := dir,
               path := dir ++ "/" ++ file_name ++ "_" ++ pad5 (fs.count dir + 1) ++ "." ++ r.ext,
               confi := confi0, yerr := none }
      else none

/-- Loop state of `reorgnize_file`: the carried `confi` variable, the
tree, the success/failure counters, and the two side tables. -/
structure ReorgSt where
  confi : Option String
  fs : FS
  success : Nat
  fail : Nat
  yerrRows : List YerrRow
  failRows : List FailRow

/-- One iteration of the `reorgnize_file` loop: plan the target, then
move or copy with `move_file`, recording a failure row (with the mode
actually passed to `move_file`) when a reason comes back. -/
def reorgnize_step (remove : Bool) (st : ReorgSt) (r : FileRecord) : Option ReorgSt :=
  match planStep st.confi r st.fs with
  | none => none
  | some pl =>
    let res := move_file st.fs r.path pl.path remove
    match res.1 with
    | none =>
        some { st with
                confi := pl.confi, fs := res.2, success := st.success + 1,
                yerrRows := st.yerrRows ++ pl.yerr.toList }
    | some reason =>
        some { st with
                confi := pl.confi, fs := res.2, fail := st.fail + 1,
                yerrRows := st.yerrRows ++ pl.yerr.toList,
                failRows := st.failRows ++
                  [{ orig := r.path, target := pl.path, mode := remove,
                     size := r.size, reason := reason }] }

/-- Embedding of `reorgnize_file` (tidy.py lines 289-407): fold the loop
over the ledger rows; `none` models an uncaught exception aborting the
loop. -/
def reorgnize_file (df : List FileRecord) (remove : Bool) (fs : FS) : Option ReorgSt :=
  df.foldlM (reorgnize_step remove)
    { confi := none, fs := fs, success := 0, fail := 0, yerrRows := [], failRows := [] }

/-- Model of `os.mkdir` on an existing tree: create the directory if it is
absent and count it as a new entry of its parent. -/
def mkdir (d : String) (fs : FS) : FS :=
  if fs.dirs d then fs
  else
    { dirs := fun p => if p = d then true else fs.dirs p,
      count := fun p => if p = pyDirname d then fs.count p + 1 else fs.count p,
      files := fs.files }

/-- Embedding of `mk_category_dirs` (tidy.py lines 102-114) applied to
`_FILE_CATEGORY`: create each routing directory, in dictionary order. -/
def mk_category_dirs (fs : FS) : FS :=
  ["Photos_bydt", "Photos_nodt", "Photos_bydt", "Videos_nodt", "Year_err", "Other_files"].foldl
    (fun acc d => mkdir d acc) fs

/-- Embedding of `mk_date_dirs` (tidy.py lines 117-141): under every
date-routed base directory create one directory per year from `beginYear`
to `currentYear` and one zero-padded month directory per month. -/
def mk_date_dirs (beginYear currentYear : Nat) (fs : FS) : FS :=
  DATE_DIRS.foldl
    (fun acc0 base =>
      (List.range' beginYear (currentYear + 1 - beginYear)).foldl
        (fun acc1 i =>
          let ydir := joinPath base (Nat.repr i)
          (List.range' 1 12).foldl
            (fun acc2 j => mkdir (joinPath ydir (String.mk (pad2 j))) acc2)
            (mkdir ydir acc1))
        acc0)
    fs

/-- Model of the `os.rmdir` performed on an empty directory by
`rm_date_dirs`. -/
def rmdirIfEmpty (d : String) (fs : FS) : FS :=
  if fs.count d = 0 then
    { dirs := fun p => if p = d then false else fs.dirs p,
      count := fun p => if p = pyDirname d then fs.count p - 1 else fs.count p,
      files := fs.files }
  else fs

/-- Embedding of `rm_date_dirs` (tidy.py lines 144-168): for each base,
first delete every empty month directory, then every year directory left
empty. -/
def rm_date_dirs (beginYear currentYear : Nat) (fs : FS) : FS :=
  DATE_DIRS.foldl
    (fun acc0 base =>
      let acc1 :=
        (List.range' beginYear (currentYear + 1 - beginYear)).foldl
          (fun acc1 i =>
            (List.range' 1 12).foldl
              (fun acc2 j => rmdirIfEmpty (joinPath (joinPath base (Nat.repr i)) (String.mk (pad2 j))) acc2)
              acc1)
          acc0
      (List.range' beginYear (currentYear + 1 - beginYear)).foldl
        (fun acc2 i => rmdirIfEmpty (joinPath base (Nat.repr i)) acc2)
        acc1)
    fs

/-- The duplicate-matching key of `_D_COLS_SET` (tidy.py line 59):
extension, size, content hash. -/
def dupTriple (r : FileRecord) : String × String × String := (r.ext, r.size, r.md5)

/-- Membership in `file_dataframe.duplicated(_D_COLS_SET, keep=False)`
(tidy.py line 217): a row is flagged when at least two rows of the table
share its key triple. -/
def dupFlagged (df : List FileRecord) (r : FileRecord) : Bool :=
  2 ≤ df.countP (fun x => decide (dupTriple x = dupTriple r))

/-- Recursion behind `drop_duplicates(_D_COLS_SET)` (tidy.py line 227):
keep a row when its key triple has not been seen yet. -/
def dropDupAux (seen : List (String × String × String)) :
    List FileRecord → List FileRecord
  | [] => []
  | r :: rest =>
      if dupTriple r ∈ seen then dropDupAux seen rest
      else r :: dropDupAux (dupTriple r :: seen) rest

/-- Model of `file_dataframe.drop_duplicates(_D_COLS_SET)`: the first
occurrence of each key triple survives, in original order. -/
def drop_duplicates (df : List FileRecord) : List FileRecord := dropDupAux [] df

/-- How `chk_duplicate` can hand control back. -/
inductive ChkOutcome where
  | proceed (df : List FileRecord) : ChkOutcome
  | exited : ChkOutcome
deriving DecidableEq

/-- The re-prompting input loop of `chk_duplicate` (tidy.py lines
222-224): the first entry of the operator's input stream that is one of
`YES`/`NO`/`EXIT` is used; any other entry is rejected and prompted
again. -/
def firstValid (inputs : List String) : Option String :=
  inputs.find? (fun s => s = "YES" || s = "NO" || s = "EXIT")

/-- Embedding of `chk_duplicate` (tidy.py lines 210-233): `YES` keeps
only the first occurrence of each duplicate group, `NO` keeps the table
unchanged, `EXIT` leaves the program; if no valid answer ever arrives,
the prompt never resolves (`none`) — there is no default. -/
def chk_duplicate (df : List FileRecord) (inputs : List String) : Option ChkOutcome :=
  match firstValid inputs with
  | some s =>
      if s = "YES" then some (ChkOutcome.proceed (drop_duplicates df))
      else if s = "NO" then some (ChkOutcome.proceed df)
      else some ChkOutcome.exited
  | none => none

/-- Embedding of tidy.py `main` (lines 409-433) past its external I/O:
take the ledger rows, resolve the duplicate prompt, create the category
and year/month directories, reorganize, prune empty date directories.
The `remove` argument is the command-line move-vs-copy flag received by
`main`; line 431 of the source passes the literal `remove=False` to
`reorgnize_file`, so the flag is accepted here and then ignored exactly
as in the source. -/
def tidy_main (df : List FileRecord) (inputs : List String) (remove : Bool)
    (beginYear currentYear : Nat) (fs : FS) : Option ReorgSt :=
  match chk_duplicate df inputs with
  | none => none
  | some ChkOutcome.exited => none
  | some (ChkOutcome.proceed chked) =>
    let fs1 := mk_category_dirs fs
    let fs2 := mk_date_dirs beginYear currentYear fs1
    match reorgnize_file chked false fs2 with
    | none => none
    | some st => some { st with fs := rm_date_dirs beginYear currentYear st.fs }

/-- Tier codes used in confidence strings: `U` for tier 0 (original),
`H` for tier 1 (digitized), `N` for tier 2 (generic fallback). -/
def tierLetter : Fin 3 → String
  | 0 => "U"
  | 1 => "H"
  | 2 => "N"

/-- Specification-shaped duplicate dropping: walk the ledger keeping a
record exactly when no record of the already-walked prefix shares its key
triple. -/
def keepFirstsAux (pre : List FileRecord) : List FileRecord → List FileRecord
  | [] => []
  | r :: rest =>
      if pre.any (fun x => decide (dupTriple x = dupTriple r)) then
        keepFirstsAux (pre ++ [r]) rest
      else r :: keepFirstsAux (pre ++ [r]) rest

/-- First-occurrence selection by original ledger order. -/
def keepFirsts (df : List FileRecord) : List FileRecord := keepFirstsAux [] df

/-- A concrete tree with no directories and one source file. -/
def fsSample : FS :=
  { dirs := fun _ => false, count := fun _ => 0,
    files := fun p => p = "srcdir/a.jpg" }

/-- A concrete EXIF-classified ledger row. -/
def recExifSample : FileRecord :=
  { path := "srcdir/a.jpg", ftype := "image", ext := "jpg", size := "100.5",
    md5 := "aaaa", check := some "EXIF", exifK := some "EXIF DateTimeOriginal",
    exifR := some "2000:05:01 10:10:10", exifS := some "2000/05",
    exifL := some "20000501_101010",
    metaK := none, metaR := none, metaS := none, metaL := none }

/-- A successful extractor result with the given type, key and forms. -/
def extOkSample (typ key short lng : String) : ExtMsg :=
  { stat := "0", etype := typ, key := some key, raw := some "r",
    short := some short, long := some lng }

/-- A failed extractor result (invalid-date status). -/
def extFailSample : ExtMsg :=
  { stat := "4", etype := "EXIF", key := none, raw := none,
    short := none, long := none }




theorem digitChar_isDigit {m : Nat} (h : m < 10) : (digitChar m).isDigit = true := by
  interval_cases m <;> decide

theorem dval_digitChar {m : Nat} (h : m < 10) : dval (digitChar m) = m := by
  interval_cases m <;> decide

theorem digitChar_not_cjk {m : Nat} (h : m < 10) :
    isCJKorLatinB (digitChar m) = false := by
  interval_cases m <;> decide

theorem digitChar_not_ws {m : Nat} (h : m < 10) : pyWs (digitChar m) = false := by
  interval_cases m <;> decide

theorem digitChar_ne_newline {m : Nat} (h : m < 10) : digitChar m ≠ '\n' := by
  interval_cases m <;> decide

theorem digitChar_ne_slash {m : Nat} (h : m < 10) : digitChar m ≠ '/' := by
  interval_cases m <;> decide

theorem dashSlash_digitChar {m : Nat} (h : m < 10) :
    dashSlashToColon (digitChar m) = digitChar m := by
  interval_cases m <;> decide

@[simp] theorem isDigit_digitChar_mod (k : Nat) :
    (digitChar (k % 10)).isDigit = true :=
  digitChar_isDigit (Nat.mod_lt k (by norm_num))

@[simp] theorem dval_digitChar_mod (k : Nat) : dval (digitChar (k % 10)) = k % 10 :=
  dval_digitChar (Nat.mod_lt k (by norm_num))

@[simp] theorem cjk_digitChar_mod (k : Nat) :
    isCJKorLatinB (digitChar (k % 10)) = false :=
  digitChar_not_cjk (Nat.mod_lt k (by norm_num))

@[simp] theorem ws_digitChar_mod (k : Nat) : pyWs (digitChar (k % 10)) = false :=
  digitChar_not_ws (Nat.mod_lt k (by norm_num))

@[simp] theorem ne_newline_digitChar_mod (k : Nat) : digitChar (k % 10) ≠ '\n' :=
  digitChar_ne_newline (Nat.mod_lt k (by norm_num))

@[simp] theorem ne_slash_digitChar_mod (k : Nat) : digitChar (k % 10) ≠ '/' :=
  digitChar_ne_slash (Nat.mod_lt k (by norm_num))

@[simp] theorem dashSlash_digitChar_mod (k : Nat) :
    dashSlashToColon (digitChar (k % 10)) = digitChar (k % 10) :=
  dashSlash_digitChar (Nat.mod_lt k (by norm_num))

/-- C1: for a raw date string on which the date-time pattern does not
match, the claim says `process_datetime` returns `None` and never lets an
exception escape; in the code the `if not datetime` guard is commented
out, so the `.group('year')` call on the failed search raises an
`AttributeError` which propagates through `get_exif_datetime` /
`get_meta_datetime` and aborts the batch. -/
theorem process_datetime_no_match_raises :
    process_datetime "hello" = Except.error PyErr.attributeError ∧
    extractFromRaw "EXIF" "EXIF DateTimeOriginal" "hello" =
      Except.error PyErr.attributeError ∧
    extractFromRaw "META" "Date-time original" "hello" =
      Except.error PyErr.attributeError :=
  ⟨rfl, rfl, rfl⟩

/-- C2: the raw date `2021:04:31 10:00:00` passes the first-pass field
validation (day 31 is within 1..31) and renders, but April has 30 days,
so the strict second-pass `time.strptime` fails; the claim says the
extraction result is then downgraded to the invalid-date status, but the
`strptime` call sits outside the `try` block, so the `ValueError` escapes
both extraction functions instead. -/
theorem second_pass_calendar_failure_raises :
    process_datetime "2021:04:31 10:00:00" =
      Except.ok (some "2021:04:31 10:00:00") ∧
    extractFromRaw "EXIF" "EXIF DateTimeOriginal" "2021:04:31 10:00:00" =
      Except.error PyErr.valueError ∧
    extractFromRaw "META" "Date-time original" "2021:04:31 10:00:00" =
      Except.error PyErr.valueError :=
  ⟨rfl, rfl, rfl⟩
theorem takeWhile_before_slash (y : Nat) (l : List Char) :
    List.takeWhile (fun c => decide (c ≠ '/')) (numStr4 y ++ '/' :: l) = numStr4 y := by
  simp [numStr4, List.takeWhile_cons, ne_slash_digitChar_mod]

theorem yearOfShort_fmtShort (y mo : Nat) (hy : y < 10000) :
    yearOfShort (some (fmtShort y mo)) = some y := by
  unfold yearOfShort fmtShort pyInt
  simp only [String.data, List.append_assoc, List.singleton_append]
  rw [takeWhile_before_slash]
  simp only [numStr4, List.all_cons, List.all_nil, isDigit_digitChar_mod, Bool.and_self,
    Bool.and_true, Bool.true_and, List.foldl, dval_digitChar_mod]
  rw [if_pos (by simp)]
  exact congrArg some (by omega)
/-- C3: counterexample to the claim that the year gate applies regardless
of classification outcome, including `DATE_MISMATCH`: a record whose two
sources disagree and whose resolved year 1899 is below the floor 2000
keeps classification `D_ERR` — the gate at collect.py line 290 runs only
for `BOTH`/`EXIF`/`META`. -/
theorem year_gate_skips_mismatch :
    (get_datetime
      { stat := "0", etype := "EXIF", key := some "EXIF DateTimeOriginal",
        raw := some "1899:04:01 00:00:00", short := some "1899/04",
        long := some "18990401_000000" }
      { stat := "0", etype := "META", key := some "Date-time original",
        raw := some "1899:05:01 00:00:00", short := some "1899/05",
        long := some "18990501_000000" }
      2025 2000).map DtMsg.check = some (some "D_ERR") ∧
    (1899 < 2000 ∧ some "D_ERR" ≠ some "Y_ERR") :=
  ⟨rfl, by decide⟩

/-- C3 (amended): the year gate runs only when the classification is
`BOTH`, `EXIF` or `META`; for those, a resolved year below the floor or
above the current calendar year forces `Y_ERR` (so 1899 or 2051 forces it
when both sources agree), while a `DATE_MISMATCH` record keeps `D_ERR`
untouched whatever its year. -/
theorem year_gate_amended :
    (∀ (exif meta : ExtMsg) (cy by' y mo : Nat) (longE : String),
      exif.stat = "0" → exif.short = some (fmtShort y mo) →
      exif.long = some longE → meta.stat ≠ "0" → y < 10000 →
      (y < by' ∨ cy < y) →
      (get_datetime exif meta cy by').map DtMsg.check = some (some "Y_ERR")) ∧
    (∀ (exif meta : ExtMsg) (cy by' y mo : Nat) (longM : String),
      meta.stat = "0" → meta.short = some (fmtShort y mo) →
      meta.long = some longM → exif.stat ≠ "0" → y < 10000 →
      (y < by' ∨ cy < y) →
      (get_datetime exif meta cy by').map DtMsg.check = some (some "Y_ERR")) ∧
    (∀ (exif meta : ExtMsg) (cy by' y mo : Nat) (lng : String),
      exif.stat = "0" → meta.stat = "0" → meta.short = some (fmtShort y mo) →
      exif.long = some lng → meta.long = some lng → y < 10000 →
      (y < by' ∨ cy < y) →
      (get_datetime exif meta cy by').map DtMsg.check = some (some "Y_ERR")) ∧
    (∀ (exif meta : ExtMsg) (cy by' : Nat) (l1 l2 : String),
      exif.stat = "0" → meta.stat = "0" →
      exif.long = some l1 → meta.long = some l2 → l1 ≠ l2 →
      (get_datetime exif meta cy by').map DtMsg.check = some (some "D_ERR")) := by
  refine ⟨?_, ?_, ?_, ?_⟩
  · intro exif meta cy by' y mo longE h0 hs hl hm hy hr
    simp only [get_datetime, h0, hs, hl, if_true, if_pos rfl, hm, if_neg hm]
    simp only [classify, yearOfShort_fmtShort y mo hy]
    rcases hr with hr | hr
    · simp [hr]
    · simp [hr]
  · intro exif meta cy by' y mo longM h0 hs hl hm hy hr
    simp only [get_datetime, h0, hs, hl, hm, if_neg hm]
    simp only [classify, yearOfShort_fmtShort y mo hy]
    rcases hr with hr | hr
    · simp [hr]
    · simp [hr]
  · intro exif meta cy by' y mo lng h0 h0m hs hl hm hy hr
    simp only [get_datetime, h0, h0m, hs, hl, hm]
    simp only [classify, yearOfShort_fmtShort y mo hy]
    rcases hr with hr | hr
    · simp [hr]
    · simp [hr]
  · intro exif meta cy by' l1 l2 h0 h0m hl hm hne
    simp only [get_datetime, h0, h0m, hl, hm]
    simp [classify, hne]

/-- Witness for the amended year gate: with both sources agreeing on year
1899 (below the floor) the record is forced to `Y_ERR`, with 2051 (above
a 2025 calendar year) likewise, and with disagreeing long forms and year
1899 the record keeps `D_ERR`. -/
theorem year_gate_amended_witness :
    (get_datetime (extOkSample "EXIF" "EXIF DateTimeOriginal" "1899/04" "18990401_000000")
      (extOkSample "META" "Date-time original" "1899/04" "18990401_000000")
      2025 2000).map DtMsg.check = some (some "Y_ERR") ∧
    (get_datetime (extOkSample "EXIF" "EXIF DateTimeOriginal" "2051/04" "20510401_000000")
      (extOkSample "META" "Date-time original" "2051/04" "20510401_000000")
      2025 2000).map DtMsg.check = some (some "Y_ERR") ∧
    (get_datetime (extOkSample "EXIF" "EXIF DateTimeOriginal" "1899/04" "18990401_000000")
      (extOkSample "META" "Date-time original" "1899/05" "18990501_000000")
      2025 2000).map DtMsg.check = some (some "D_ERR") :=
  ⟨year_gate_amended.2.2.1 _ _ 2025 2000 1899 4 "18990401_000000"
      rfl rfl rfl rfl rfl (by decide) (Or.inl (by decide)),
   year_gate_amended.2.2.1 _ _ 2025 2000 2051 4 "20510401_000000"
      rfl rfl rfl rfl rfl (by decide) (Or.inr (by decide)),
   year_gate_amended.2.2.2 _ _ 2025 2000 "18990401_000000" "18990501_000000"
      rfl rfl rfl rfl (by decide)⟩

/-- C5: the classification of collect.py lines 279-289 is a pure, total,
deterministic function of the two post-normalization statuses and, when
both sides are valid, long-form equality: both valid and equal gives
`BOTH`, both valid and different gives `D_ERR` (DATE_MISMATCH), exactly
one valid gives that source's name, and when neither side is valid the
resolver leaves the classification empty (`NONE`). -/
theorem classification_pure_function :
    (∀ l1 l2 : String,
      classify "0" (some l1) (some l2) =
        some (if l1 = l2 then "BOTH" else "D_ERR")) ∧
    (∀ l : String, classify "0" (some l) none = some "EXIF") ∧
    (∀ l : String, classify "0" none (some l) = some "META") ∧
    (∀ (exif meta : ExtMsg) (cy by' : Nat),
      exif.stat ≠ "0" → meta.stat ≠ "0" →
      (get_datetime exif meta cy by').map DtMsg.check = some none) := by
  refine ⟨?_, ?_, ?_, ?_⟩
  · intro l1 l2
    by_cases h : l1 = l2 <;> simp [classify, h]
  · intro l; simp [classify]
  · intro l; simp [classify]
  · intro exif meta cy by' h1 h2
    simp [get_datetime, h1, h2]

/-- Witness applying the classification function at the spec's own
examples: equal long forms give `BOTH`, different give `D_ERR`, and two
failed extractions leave the record unclassified. -/
theorem classification_pure_function_witness :
    classify "0" (some "20210101_120000") (some "20210101_120000") = some "BOTH" ∧
    classify "0" (some "20210101_120000") (some "20210102_120000") = some "D_ERR" ∧
    classify "0" (some "20210101_120000") none = some "EXIF" ∧
    (get_datetime extFailSample extFailSample 2025 2000).map DtMsg.check = some none := by
  refine ⟨?_, ?_, classification_pure_function.2.1 "20210101_120000", ?_⟩
  · have h := classification_pure_function.1 "20210101_120000" "20210101_120000"
    simpa using h
  · have h := classification_pure_function.1 "20210101_120000" "20210102_120000"
    simpa using h
  · exact classification_pure_function.2.2.2 extFailSample extFailSample 2025 2000
      (by decide) (by decide)

theorem stripCJKLatin_all_underscore {l : List Char}
    (h : ∀ c ∈ l, isCJKorLatinB c = true ∨ c = '_') :
    ∀ c ∈ stripCJKLatin l, c = '_' := by
  intro c hc
  rw [stripCJKLatin, List.mem_filter] at hc
  rcases h c hc.1 with hk | hk
  · rw [hk] at hc; simp at hc
  · exact hk

theorem dropWhile_underscore_of_all {l : List Char}
    (h : ∀ c ∈ l, c = '_') : l.dropWhile (fun c => c = '_') = [] := by
  induction l with
  | nil => rfl
  | cons a t ih =>
      rw [List.dropWhile_cons, h a (by simp), if_pos (by simp)]
      exact ih (fun c hc => h c (by simp [hc]))

/-- C10: counterexample to the claim that every digit-free basename gives
an empty fragment: the stem `a-b` contains no digit, yet `pick_num`
returns `-` (only CJK/Latin letters and boundary underscores are
stripped, so other punctuation survives). -/
theorem pick_num_digit_free_not_empty :
    (∀ c ∈ ("a-b" : String).data, c.isDigit = false) ∧ pick_num "a-b" = "-" ∧
    pick_num "a-b" ≠ "" := by
  refine ⟨by decide, by decide, by decide⟩

/-- C10 (amended): for a stem made only of CJK characters, Latin letters
and underscores (such stems contain no digit), `pick_num` returns the
empty string and never falls back to the original stem, so an undated
image record with such a stem is planned as
`IMG__NODT_<seq5>.<ext>` in the undated-images directory. -/
theorem pick_num_letters_only_empty (s : String)
    (h : ∀ c ∈ s.data, isCJKorLatinB c = true ∨ c = '_') :
    pick_num s = "" ∧
    (∀ (r : FileRecord) (fs : FS) (confi0 : Option String),
      r.check = none → r.ftype = "image" → pyStem (pyBasename r.path) = s →
      fs.dirs "Photos_nodt" = true →
      planStep confi0 r fs =
        some { dir := "Photos_nodt",
               path := "Photos_nodt/IMG_" ++ pick_num s ++ "_NODT_" ++
                       pad5 (fs.count "Photos_nodt" + 1) ++ "." ++ r.ext,
               confi := confi0, yerr := none }) := by
  have hempty : pick_num s = "" := by
    have h1 : ∀ c ∈ stripCJKLatin s.data, c = '_' := stripCJKLatin_all_underscore h
    have h2 : (stripCJKLatin s.data).dropWhile (fun c => c = '_') = [] :=
      dropWhile_underscore_of_all h1
    rw [pick_num]
    rw [h2]
    rfl
  refine ⟨hempty, ?_⟩
  intro r fs confi0 hck hty hstem hdir
  simp [planStep, hck, hty, hstem, hdir, FILE_CATEGORY, hempty]

/-- Witness for the amended fragment rule at the concrete stem `照片_IMG`:
the fragment is empty and a concrete undated image record is planned as
`IMG__NODT_00001.jpg`. -/
theorem pick_num_letters_only_empty_witness :
    pick_num "照片_IMG" = "" ∧
    planStep none
      { path := "srcdir/照片_IMG.jpg", ftype := "image", ext := "jpg",
        size := "1.0", md5 := "bb", check := none,
        exifK := none, exifR := none, exifS := none, exifL := none,
        metaK := none, metaR := none, metaS := none, metaL := none }
      { dirs := fun d => d = "Photos_nodt", count := fun _ => 0,
        files := fun _ => false } =
      some { dir := "Photos_nodt", path := "Photos_nodt/IMG__NODT_00001.jpg",
             confi := none, yerr := none } := by
  have h := pick_num_letters_only_empty "照片_IMG" (by decide)
  refine ⟨h.1, ?_⟩
  have h2 := h.2
    { path := "srcdir/照片_IMG.jpg", ftype := "image", ext := "jpg",
      size := "1.0", md5 := "bb", check := none,
      exifK := none, exifR := none, exifS := none, exifL := none,
      metaK := none, metaR := none, metaS := none, metaL := none }
    { dirs := fun d => d = "Photos_nodt", count := fun _ => 0,
      files := fun _ => false }
    none rfl rfl (by decide) (by decide)
  rw [h2]
  congr 1

theorem digitChar_ne_dash {m : Nat} (h : m < 10) : digitChar m ≠ '-' := by
  interval_cases m <;> decide

@[simp] theorem ne_dash_digitChar_mod (k : Nat) : digitChar (k % 10) ≠ '-' :=
  digitChar_ne_dash (Nat.mod_lt k (by norm_num))

@[simp] theorem cjk_colon : isCJKorLatinB ':' = false := by decide

@[simp] theorem cjk_space : isCJKorLatinB ' ' = false := by decide

@[simp] theorem dashSlash_colon : dashSlashToColon ':' = ':' := by decide

@[simp] theorem dashSlash_space : dashSlashToColon ' ' = ' ' := by decide

theorem stripCJKLatin_renderDT (y mo dy hh mi ss : Nat) :
    stripCJKLatin (renderDT y mo dy hh mi ss) = renderDT y mo dy hh mi ss := by
  simp [stripCJKLatin, renderDT, numStr4, pad2, List.filter_append]

theorem map_dash_renderDT (y mo dy hh mi ss : Nat) :
    (renderDT y mo dy hh mi ss).map dashSlashToColon = renderDT y mo dy hh mi ss := by
  simp [renderDT, numStr4, pad2, dashSlash_digitChar_mod]

theorem renderDT_explicit (y mo dy hh mi ss : Nat) :
    renderDT y mo dy hh mi ss =
      [digitChar (y / 1000 % 10), digitChar (y / 100 % 10), digitChar (y / 10 % 10),
       digitChar (y % 10), ':', digitChar (mo / 10 % 10), digitChar (mo % 10), ':',
       digitChar (dy / 10 % 10), digitChar (dy % 10), ' ',
       digitChar (hh / 10 % 10), digitChar (hh % 10), ':',
       digitChar (mi / 10 % 10), digitChar (mi % 10), ':',
       digitChar (ss / 10 % 10), digitChar (ss % 10)] := by
  simp [renderDT, numStr4, pad2]

theorem tryDescending_eq_matchCore (l : List Char) :
    ∀ k : Nat, (∀ p, 1 ≤ p → p ≤ k → matchCore (l.drop p) = none) →
    tryDescending k l = matchCore l := by
  intro k
  induction k with
  | zero => intro _; rfl
  | succ n ih =>
      intro h
      rw [tryDescending, h (n + 1) (by omega) (by omega)]
      exact ih (fun p h1 h2 => h p h1 (by omega))

@[simp] theorem colon_not_digit : (':').isDigit = false := by decide

@[simp] theorem space_not_digit : (' ').isDigit = false := by decide

@[simp] theorem pyWs_space : pyWs ' ' = true := by decide

theorem matchCore_renderDT (y mo dy hh mi ss : Nat)
    (hy : y < 10000) (hmo : mo < 100) (hdy : dy < 100)
    (hhh : hh < 100) (hmi : mi < 100) (hss : ss < 100) :
    matchCore (renderDT y mo dy hh mi ss) = some (y, mo, dy, hh, mi, ss) := by
  rw [renderDT_explicit]
  simp only [matchCore, isDigit_digitChar_mod, Bool.and_self, Bool.and_true,
    Bool.true_and, if_true, expectColon, parseNum2, skipWs1, skipWsMany,
    pyWs_space, ws_digitChar_mod, dval_digitChar_mod, colon_not_digit,
    Bool.if_true_left, ite_true, ite_false, if_pos, Bool.false_eq_true]
  simp only [Option.some.injEq, Prod.mk.injEq]
  omega

theorem matchCore_drop_renderDT (y mo dy hh mi ss : Nat) :
    ∀ p, 1 ≤ p → p ≤ 19 →
    matchCore ((renderDT y mo dy hh mi ss).drop p) = none := by
  rw [renderDT_explicit]
  intro p h1 h2
  interval_cases p <;>
    simp [matchCore, colon_not_digit, space_not_digit]

theorem takeWhile_newline_renderDT (y mo dy hh mi ss : Nat) :
    (renderDT y mo dy hh mi ss).takeWhile (fun c => decide (c ≠ '\n')) =
      renderDT y mo dy hh mi ss := by
  rw [renderDT_explicit]
  simp [List.takeWhile_cons, ne_newline_digitChar_mod]

theorem renderDT_length (y mo dy hh mi ss : Nat) :
    (renderDT y mo dy hh mi ss).length = 19 := by
  rw [renderDT_explicit]; rfl

theorem pySearchDT_renderDT (y mo dy hh mi ss : Nat)
    (hy : y < 10000) (hmo : mo < 100) (hdy : dy < 100)
    (hhh : hh < 100) (hmi : mi < 100) (hss : ss < 100) :
    pySearchDT (renderDT y mo dy hh mi ss) = some (y, mo, dy, hh, mi, ss) := by
  rw [pySearchDT, renderDT_length, pySearchAux]
  rw [takeWhile_newline_renderDT, renderDT_length]
  rw [tryDescending_eq_matchCore _ 19 (matchCore_drop_renderDT y mo dy hh mi ss)]
  rw [matchCore_renderDT y mo dy hh mi ss hy hmo hdy hhh hmi hss]

/-- C9: `process_datetime` is idempotent on canonical strings: for every
already-canonical, zero-padded `YYYY:MM:DD HH:MM:SS` string within the
field invariants (year 1900-2050, month 1-12, day 1-31, hour below 24,
minute and second below 60), normalizing returns the same string. -/
theorem process_datetime_idempotent (y mo dy hh mi ss : Nat)
    (h1 : 1900 ≤ y) (h2 : y ≤ 2050) (h3 : 1 ≤ mo) (h4 : mo ≤ 12)
    (h5 : 1 ≤ dy) (h6 : dy ≤ 31) (h7 : hh ≤ 23) (h8 : mi ≤ 59) (h9 : ss ≤ 59) :
    process_datetime (String.mk (renderDT y mo dy hh mi ss)) =
      Except.ok (some (String.mk (renderDT y mo dy hh mi ss))) := by
  rw [process_datetime]
  simp only [String.data]
  rw [stripCJKLatin_renderDT, map_dash_renderDT]
  rw [pySearchDT_renderDT y mo dy hh mi ss (by omega) (by omega) (by omega)
    (by omega) (by omega) (by omega)]
  simp only []
  rw [if_neg (by simp; omega), if_neg (by simp; omega), if_neg (by simp; omega)]
  rw [if_neg (by simp; omega), if_neg (by simp; omega), if_neg (by simp; omega)]

/-- Witness: normalizing the canonical string `2022:04:01 15:25:38`
returns it unchanged. -/
theorem process_datetime_idempotent_witness :
    process_datetime (String.mk (renderDT 2022 4 1 15 25 38)) =
      Except.ok (some (String.mk (renderDT 2022 4 1 15 25 38))) :=
  process_datetime_idempotent 2022 4 1 15 25 38 (by decide) (by decide) (by decide)
    (by decide) (by decide) (by decide) (by decide) (by decide) (by decide)

/-- C6: for a `DATE_MISMATCH` record with recognized tag keys on both
sides, the planner scans tier 0, then 1, then 2; the first tier at which
a source's key matched picks the preferred side, with EXIF preferred on a
tie; the confidence code is `D_<chosenSource>_<tierCode>` (tier codes
`U`/`H`/`N` for tiers 0/1/2), and the target directory and name come from
the chosen side's short and long forms. -/
theorem mismatch_chooses_lowest_tier (r : FileRecord) (fs : FS)
    (confi0 : Option String) (tE tM : Fin 3) (shortE longE shortM longM : String)
    (hck : r.check = some "D_ERR") (hty : r.ftype = "image")
    (hek : r.exifK = some (EXIF_KEYS.get tE)) (hmk : r.metaK = some (META_KEYS.get tM))
    (hes : r.exifS = some shortE) (hel : r.exifL = some longE)
    (hms : r.metaS = some shortM) (hml : r.metaL = some longM)
    (hdE : fs.dirs (joinPath "Photos_bydt" shortE) = true)
    (hdM : fs.dirs (joinPath "Photos_bydt" shortM) = true) :
    planStep confi0 r fs =
      (let src : String := if tE ≤ tM then "EXIF" else "META"
       let shortC : String := if tE ≤ tM then shortE else shortM
       let longC : String := if tE ≤ tM then longE else longM
       let code : String := "D_" ++ src ++ "_" ++ tierLetter (min tE tM)
       let dir : String := joinPath "Photos_bydt" shortC
       some { dir := dir,
              path := dir ++ "/IMG_" ++ longC ++ "_" ++ code ++ "_" ++
                      pad5 (fs.count dir + 1) ++ "." ++ r.ext,
              confi := some code, yerr := none }) := by
  fin_cases tE <;> fin_cases tM <;>
    simp_all [planStep, FILE_CATEGORY, EXIF_KEYS, META_KEYS, tierLetter,
      joinPath, fmtOpt, hdE, hdM]

/-- Witness for the mismatch tie-break: EXIF at tier 1 (digitized) and
META at tier 0 (original) prefer META with code `D_META_U`; equal tier 0
keys prefer EXIF with code `D_EXIF_U`. -/
theorem mismatch_chooses_lowest_tier_witness :
    planStep none
      { recExifSample with check := some "D_ERR",
                           exifK := some "EXIF DateTimeDigitized",
                           metaK := some "Date-time original",
                           metaS := some "2000/06", metaL := some "20000601_101010" }
      (mk_date_dirs 2000 2000 (mk_category_dirs fsSample)) =
      some { dir := "Photos_bydt/2000/06",
             path := "Photos_bydt/2000/06/IMG_20000601_101010_D_META_U_00001.jpg",
             confi := some "D_META_U", yerr := none } := by
  have h := mismatch_chooses_lowest_tier
    { recExifSample with check := some "D_ERR",
                         exifK := some "EXIF DateTimeDigitized",
                         metaK := some "Date-time original",
                         metaS := some "2000/06", metaL := some "20000601_101010" }
    (mk_date_dirs 2000 2000 (mk_category_dirs fsSample)) none 1 0
    "2000/05" "20000501_101010" "2000/06" "20000601_101010"
    rfl rfl rfl rfl rfl rfl rfl rfl (by decide) (by decide)
  rw [h]
  decide
theorem seq_shape_nodt (x f g : String) :
    x ++ "_NODT_" ++ f ++ "." ++ g = (x ++ "_NODT") ++ "_" ++ f ++ "." ++ g := by
  have h : ("_NODT" ++ "_" : String) = "_NODT_" := rfl
  rw [String.append_assoc x "_NODT" "_", h]
set_option maxHeartbeats 1000000 in
theorem planStep_seq_suffix (confi0 : Option String) (r : FileRecord) (fs : FS)
    (pl : PlanOut) (h : planStep confi0 r fs = some pl) :
    ∃ pre, pl.path = pre ++ "_" ++ pad5 (fs.count pl.dir + 1) ++ "." ++ r.ext := by
  unfold planStep at h
  repeat' (first | (split at h) | (simp only [] at h; split at h))
  all_goals (cases h)
  all_goals (first
    | with_reducible exact ⟨_, rfl⟩
    | (simp only [seq_shape_nodt]; exact ⟨_, rfl⟩))

/-- C7: every placement's five-digit sequence suffix is one plus the
number of entries in the target directory at the moment of placement;
consequently three files with identical classification placed into an
initially empty month directory get suffixes `00001`, `00002`, `00003`
in placement order. -/
theorem sequence_counter_spec :
    (∀ (confi0 : Option String) (r : FileRecord) (fs : FS) (pl : PlanOut),
      planStep confi0 r fs = some pl →
      ∃ pre, pl.path = pre ++ "_" ++ pad5 (fs.count pl.dir + 1) ++ "." ++ r.ext) ∧
    ((reorgnize_file [recExifSample, recExifSample, recExifSample] false
        (mk_date_dirs 2000 2000 (mk_category_dirs fsSample))).map
      (fun st => (st.success, st.fail,
        st.fs.files "Photos_bydt/2000/05/IMG_20000501_101010_EXIF_U_00001.jpg",
        st.fs.files "Photos_bydt/2000/05/IMG_20000501_101010_EXIF_U_00002.jpg",
        st.fs.files "Photos_bydt/2000/05/IMG_20000501_101010_EXIF_U_00003.jpg")) =
      some (3, 0, true, true, true)) :=
  ⟨planStep_seq_suffix, by rfl⟩

/-- Witness applying the sequence law to a concrete placement into a
month directory holding no entry yet: the planned name carries suffix
`00001`. -/
theorem sequence_counter_spec_witness :
    ∃ pre, PlanOut.path
        { dir := "Photos_bydt/2000/05",
          path := "Photos_bydt/2000/05/IMG_20000501_101010_EXIF_U_00001.jpg",
          confi := some "EXIF_U", yerr := none } =
      pre ++ "_" ++
        pad5 ((mk_date_dirs 2000 2000 (mk_category_dirs fsSample)).count
          "Photos_bydt/2000/05" + 1) ++ "." ++ recExifSample.ext :=
  sequence_counter_spec.1 none recExifSample
    (mk_date_dirs 2000 2000 (mk_category_dirs fsSample))
    { dir := "Photos_bydt/2000/05",
      path := "Photos_bydt/2000/05/IMG_20000501_101010_EXIF_U_00001.jpg",
      confi := some "EXIF_U", yerr := none }
    (by rfl)

/-- C4: the command-line move-vs-copy flag does not determine placement.
`main` receives the flag but calls `reorgnize_file(chked_dataframe,
remove=False)` (tidy.py line 431), so even a run with the flag set copies:
the source file is still present afterwards, while calling the loop with
the flag honoured would have removed it; the failure table records the
mode actually used by `move_file` (`False`), not the command-line flag. -/
theorem tidy_move_flag_ignored :
    ((tidy_main [recExifSample] ["NO"] true 2000 2000 fsSample).map
      (fun st => (st.success, st.fs.files "srcdir/a.jpg",
        st.fs.files "Photos_bydt/2000/05/IMG_20000501_101010_EXIF_U_00001.jpg")) =
      some (1, true, true)) ∧
    ((reorgnize_file [recExifSample] true
        (mk_date_dirs 2000 2000 (mk_category_dirs fsSample))).map
      (fun st => (st.fs.files "srcdir/a.jpg",
        st.fs.files "Photos_bydt/2000/05/IMG_20000501_101010_EXIF_U_00001.jpg")) =
      some (false, true)) ∧
    ((tidy_main [recExifSample, { recExifSample with path := "" }] ["NO"] true
        2000 2000 fsSample).map
      (fun st => (st.fail, st.failRows.map FailRow.mode)) = some (1, [false])) :=
  ⟨rfl, rfl, rfl⟩

theorem countP_eraseIdx (p : FileRecord → Bool) :
    ∀ (l : List FileRecord) (i : Nat) (h : i < l.length),
      l.countP p = (l.eraseIdx i).countP p + (if p (l.get ⟨i, h⟩) then 1 else 0) := by
  intro l
  induction l with
  | nil => intro i h; simp at h
  | cons a t ih =>
      intro i h
      cases i with
      | zero => simp [List.countP_cons]
      | succ n =>
          have hn : n < t.length := by simpa using h
          simp only [List.eraseIdx, List.countP_cons, List.get]
          rw [ih n hn]
          omega

theorem countP_one_le_iff (p : FileRecord → Bool) (l : List FileRecord) :
    1 ≤ l.countP p ↔ ∃ r ∈ l, p r = true :=
  List.countP_pos_iff

theorem dropDupAux_eq_keepFirstsAux :
    ∀ (l : List FileRecord) (seen : List (String × String × String))
      (pre : List FileRecord),
      (∀ t, t ∈ seen ↔ (pre.any fun x => decide (dupTriple x = t)) = true) →
      dropDupAux seen l = keepFirstsAux pre l := by
  intro l
  induction l with
  | nil => intro seen pre _; rfl
  | cons r rest ih =>
      intro seen pre hinv
      rw [dropDupAux, keepFirstsAux]
      have hnew : ∀ t, t ∈ seen ∨ dupTriple r = t ↔
          ((pre ++ [r]).any fun x => decide (dupTriple x = t)) = true := by
        intro t
        rw [List.any_append]
        simp only [List.any_cons, List.any_nil, Bool.or_false, Bool.or_eq_true,
          decide_eq_true_eq]
        rw [hinv t]
      by_cases hmem : dupTriple r ∈ seen
      · rw [if_pos hmem, if_pos ((hinv (dupTriple r)).mp hmem)]
        refine ih seen (pre ++ [r]) ?_
        intro t
        rw [← hnew t]
        constructor
        · intro h; exact Or.inl h
        · rintro (h | h)
          · exact h
          · rw [← h]; exact hmem
      · rw [if_neg hmem, if_neg (fun hc => hmem ((hinv (dupTriple r)).mpr hc))]
        refine congrArg (r :: ·) (ih (dupTriple r :: seen) (pre ++ [r]) ?_)
        intro t
        rw [← hnew t, List.mem_cons]
        constructor
        · rintro (h | h)
          · exact Or.inr h.symm
          · exact Or.inl h
        · rintro (h | h)
          · exact Or.inr h
          · exact Or.inl h.symm

/-- C8: two ledger records are duplicate candidates exactly when their
extension, size and content hash all agree (so a record differing in hash
alone is not flagged); the kept rows on explicit acceptance are the first
occurrences of each key triple in original ledger order; on explicit
rejection the table passes through unmodified; and when no valid answer
is ever given the prompt never resolves — there is no silent default. -/
theorem duplicate_policy_spec :
    (∀ (df : List FileRecord) (i : Nat) (h : i < df.length),
      dupFlagged df (df.get ⟨i, h⟩) = true ↔
        ∃ r' ∈ df.eraseIdx i, dupTriple r' = dupTriple (df.get ⟨i, h⟩)) ∧
    (∀ df : List FileRecord, drop_duplicates df = keepFirsts df) ∧
    (∀ (df : List FileRecord) (inputs : List String),
      firstValid inputs = some "YES" →
      chk_duplicate df inputs = some (ChkOutcome.proceed (drop_duplicates df))) ∧
    (∀ (df : List FileRecord) (inputs : List String),
      firstValid inputs = some "NO" →
      chk_duplicate df inputs = some (ChkOutcome.proceed df)) ∧
    (∀ (df : List FileRecord) (inputs : List String),
      (∀ s ∈ inputs, s ≠ "YES" ∧ s ≠ "NO" ∧ s ≠ "EXIT") →
      chk_duplicate df inputs = none) := by
  refine ⟨?_, ?_, ?_, ?_, ?_⟩
  · intro df i h
    rw [dupFlagged]
    rw [decide_eq_true_eq]
    rw [countP_eraseIdx _ df i h, if_pos (by simp)]
    rw [show ∀ x : Nat, (2 ≤ x + 1) = (1 ≤ x) from fun x => by
      refine propext ?_; omega]
    rw [countP_one_le_iff]
    simp only [decide_eq_true_eq]
  · intro df
    exact dropDupAux_eq_keepFirstsAux df [] [] (by simp)
  · intro df inputs h
    rw [chk_duplicate, h]
    rfl
  · intro df inputs h
    rw [chk_duplicate, h]
    rfl
  · intro df inputs h
    rw [chk_duplicate]
    have hnone : firstValid inputs = none := by
      rw [firstValid, List.find?_eq_none]
      intro s hs
      obtain ⟨h1, h2, h3⟩ := h s hs
      simp [h1, h2, h3]
    rw [hnone]

/-- Witness for the duplicate policy on a concrete three-row ledger: the
first two rows share extension, size and hash and are flagged; the third
differs only in its hash and is not; acceptance keeps the first
occurrence only; rejection keeps all; an invalid answer stream resolves
nothing. -/
theorem duplicate_policy_spec_witness :
    (dupFlagged [recExifSample, { recExifSample with path := "srcdir/b.jpg" },
        { recExifSample with md5 := "cccc" }]
        (([recExifSample, { recExifSample with path := "srcdir/b.jpg" },
          { recExifSample with md5 := "cccc" }]).get ⟨0, by decide⟩) = true ↔
      ∃ r' ∈ ([recExifSample, { recExifSample with path := "srcdir/b.jpg" },
          { recExifSample with md5 := "cccc" }]).eraseIdx 0,
        dupTriple r' = dupTriple (([recExifSample,
          { recExifSample with path := "srcdir/b.jpg" },
          { recExifSample with md5 := "cccc" }]).get ⟨0, by decide⟩)) ∧
    (dupFlagged [recExifSample, { recExifSample with path := "srcdir/b.jpg" },
        { recExifSample with md5 := "cccc" }] { recExifSample with md5 := "cccc" } =
      false) ∧
    chk_duplicate [recExifSample, { recExifSample with path := "srcdir/b.jpg" }]
        ["x", "YES"] =
      some (ChkOutcome.proceed [recExifSample]) ∧
    chk_duplicate [recExifSample, { recExifSample with path := "srcdir/b.jpg" }]
        ["NO"] =
      some (ChkOutcome.proceed
        [recExifSample, { recExifSample with path := "srcdir/b.jpg" }]) ∧
    chk_duplicate [recExifSample] ["y", "yes", ""] = none := by
  refine ⟨duplicate_policy_spec.1 _ 0 (by decide), by decide, ?_, ?_, ?_⟩
  · rw [duplicate_policy_spec.2.2.1 _ _ (by rfl)]
    rfl
  · exact duplicate_policy_spec.2.2.2.1 _ _ (by rfl)
  · exact duplicate_policy_spec.2.2.2.2 _ _ (by decide)
